import Mathlib

/-!
Shallow embedding of the comic reconciliation and pricing engine of
`data_manager.py` / `models.py`.

Modelling conventions:
* Machine floats of the source are modelled as exact rationals (`ℚ`).
* A SQLAlchemy session is a pair of database states (`committed`,
  `current`) plus a schedule of injected persistence faults (`faults`):
  each flush/commit point consumes one entry of the schedule, and a
  `true` entry makes that operation raise `SQLAlchemyError`
  (modelling connection failures and similar).  Constraint violations
  (unique constraints, NOT NULL columns) are modelled deterministically
  at the flush/commit point that executes the insert.
* `db.rollback()` restores `current := committed`; `db.commit()`
  publishes `committed := current`.
* Queries are modelled as infallible scans of `current` in insertion
  order (`.first()` returns the first row in insertion order).
* The HTTP fetch layer is modelled separately by an oracle giving the
  outcome of each attempt; the returned empty dict `{}` is `none`.
-/

set_option maxHeartbeats 1000000

/-- Boolean test that the first character list is a leading segment of the
second; auxiliary for `ilike`. -/
def prefOf : List Char → List Char → Bool
  | [], _ => true
  | _ :: _, [] => false
  | a :: p, b :: l => a == b && prefOf p l

/-- Boolean test that `p` occurs as a contiguous segment of the second list;
auxiliary for `ilike`. -/
def subOf (p : List Char) : List Char → Bool
  | [] => p.isEmpty
  | b :: l => prefOf p (b :: l) || subOf p l

/-- The characters of a string, lowercased. -/
def lowerChars (s : String) : List Char :=
  s.data.map Char.toLower

/-- SQL `column ILIKE '%pat%'` as used by the source: case-insensitive
containment of `pat` in `hay` (wildcards inside `pat` are not used by the
source and are treated literally). -/
def ilike (hay pat : String) : Bool :=
  subOf (lowerChars pat) (lowerChars hay)

/-- Python `int(...)` on the stored external id (which the source writes
as `str(cv_volume['id'])`): parse a non-empty all-digit string; any other
string makes `int` raise, modelled as `none`. -/
def parseDigits : List Char → Nat → Option Nat
  | [], acc => some acc
  | c :: rest, acc =>
    if c.isDigit then parseDigits rest (acc * 10 + (c.toNat - 48)) else none

/-- Parse a decimal natural number, `none` on the empty string or any
non-digit character. -/
def parseNat (s : String) : Option Nat :=
  match s.data with
  | [] => none
  | l => parseDigits l 0

/-! ## HTTP fetch layer (`_make_api_request`)

The outcome of the `requests.get` call of attempt `i` (0-based) is given by
an oracle: a successful JSON payload, an HTTP error status (raised by
`raise_for_status`), or a network/timeout error (`RequestException`). -/

/-- Outcome of one HTTP attempt inside `_make_api_request`. -/
inductive Attempt (α : Type) where
  | success (a : α)
  | httpError (code : Nat)
  | netError
deriving DecidableEq

/-- Observable behaviour of one `_make_api_request` call on a cache miss:
the returned value (`none` is the empty dict `{}`), the list of
`time.sleep` durations in seconds in the order they were executed, and the
number of HTTP attempts performed. -/
structure FetchResult (α : Type) where
  result : Option α
  sleeps : List Nat
  attempts : Nat
deriving DecidableEq

/-- The status codes of `[401, 403, 404]` on which the retry loop breaks. -/
def nonRetryable (code : Nat) : Bool :=
  code == 401 || code == 403 || code == 404

/-- The body of the `for attempt in range(3)` loop of `_make_api_request`,
starting at attempt index `attempt` with `fuel` iterations left.  On
success the payload is returned immediately; on a non-retryable HTTP error
the loop breaks (no sleep); on any other failure the loop sleeps
`2 ^ attempt` seconds (also on the final iteration, exactly as the source
does) and continues. -/
def fetchFrom (oracle : Nat → Attempt α) : Nat → Nat → FetchResult α
  | _, 0 => ⟨none, [], 0⟩
  | attempt, fuel + 1 =>
    match oracle attempt with
    | .success a => ⟨some a, [], 1⟩
    | .httpError c =>
      if nonRetryable c then ⟨none, [], 1⟩
      else
        let r := fetchFrom oracle (attempt + 1) fuel
        ⟨r.result, 2 ^ attempt :: r.sleeps, r.attempts + 1⟩
    | .netError =>
      let r := fetchFrom oracle (attempt + 1) fuel
      ⟨r.result, 2 ^ attempt :: r.sleeps, r.attempts + 1⟩

/-- `_make_api_request` on a cache miss: up to 3 attempts. -/
def makeApiRequest (oracle : Nat → Attempt α) : FetchResult α :=
  fetchFrom oracle 0 3

/-- An attempt outcome that the loop retries after backoff: a network
error, or an HTTP error whose status is not in `[401, 403, 404]`. -/
def retryableFail : Attempt α → Bool
  | .success _ => false
  | .httpError c => !nonRetryable c
  | .netError => true

/-- The sleep durations `2^k, 2^(k+1), ...` produced by `fuel` consecutive
failed retryable iterations starting at attempt `k`. -/
def pows (k : Nat) : Nat → List Nat
  | 0 => []
  | fuel + 1 => 2 ^ k :: pows (k + 1) fuel

theorem fetchFrom_all_retryable (oracle : Nat → Attempt α) (k fuel : Nat)
    (h : ∀ i, k ≤ i → i < k + fuel → retryableFail (oracle i) = true) :
    fetchFrom oracle k fuel = ⟨none, pows k fuel, fuel⟩ := by
  induction fuel generalizing k with
  | zero => simp [fetchFrom, pows]
  | succ n ih =>
    have hk : retryableFail (oracle k) = true := h k le_rfl (by omega)
    have ihk : fetchFrom oracle (k + 1) n = ⟨none, pows (k + 1) n, n⟩ :=
      ih (k + 1) (fun i h1 h2 => h i (by omega) (by omega))
    cases ho : oracle k with
    | success a => rw [ho] at hk; simp [retryableFail] at hk
    | httpError c =>
      rw [ho] at hk
      simp only [retryableFail, Bool.not_eq_true'] at hk
      simp [fetchFrom, ho, hk, ihk, pows]
    | netError =>
      simp [fetchFrom, ho, ihk, pows]

theorem fetchFrom_result_cases (oracle : Nat → Attempt α) (k fuel : Nat) :
    (fetchFrom oracle k fuel).result = none ∨
    ∃ i a, k ≤ i ∧ i < k + fuel ∧ oracle i = .success a ∧
      (fetchFrom oracle k fuel).result = some a := by
  induction fuel generalizing k with
  | zero => left; simp [fetchFrom]
  | succ n ih =>
    cases ho : oracle k with
    | success a =>
      right
      exact ⟨k, a, le_rfl, by omega, ho, by simp [fetchFrom, ho]⟩
    | httpError c =>
      by_cases hc : nonRetryable c = true
      · left; simp [fetchFrom, ho, hc]
      · rcases ih (k + 1) with hnone | ⟨i, a, h1, h2, h3, h4⟩
        · left; simp [fetchFrom, ho, hc, hnone]
        · right
          exact ⟨i, a, by omega, by omega, h3, by simp [fetchFrom, ho, hc, h4]⟩
    | netError =>
      rcases ih (k + 1) with hnone | ⟨i, a, h1, h2, h3, h4⟩
      · left; simp [fetchFrom, ho, hnone]
      · right
        exact ⟨i, a, by omega, by omega, h3, by simp [fetchFrom, ho, h4]⟩

/-- C7: an uncached fetch whose first attempt yields HTTP status 401, 403
or 404 makes exactly one attempt, incurs no backoff sleep, and returns the
same empty-result outcome (`none`, i.e. `{}`) as exhaustion. -/
theorem c7_nonretryable_aborts_immediately (oracle : Nat → Attempt Nat) (c : Nat)
    (h : oracle 0 = .httpError c) (hc : c = 401 ∨ c = 403 ∨ c = 404) :
    makeApiRequest oracle = ⟨none, [], 1⟩ := by
  have hnr : nonRetryable c = true := by
    rcases hc with h | h | h <;> simp [nonRetryable, h]
  simp [makeApiRequest, fetchFrom, h, hnr]

theorem c7_witness :
    ((fun _ => Attempt.httpError 404 : Nat → Attempt Nat) 0 = .httpError 404 ∧
      (404 = 401 ∨ 404 = 403 ∨ 404 = 404)) ∧
    makeApiRequest (fun _ => Attempt.httpError 404 : Nat → Attempt Nat) = ⟨none, [], 1⟩ :=
  ⟨⟨rfl, by decide⟩,
    c7_nonretryable_aborts_immediately (fun _ => Attempt.httpError 404) 404 rfl (by decide)⟩

/-- C8: `_make_api_request` never raises for transport or HTTP failure:
for every attempt oracle the call returns, and the returned value is
either the payload of some successful attempt among the 3, or the empty
object `{}` (modelled `none`) once every attempt has failed. -/
theorem c8_never_raises_empty_on_exhaustion (oracle : Nat → Attempt Nat) :
    (makeApiRequest oracle).result = none ∨
    ∃ i a, i < 3 ∧ oracle i = .success a ∧ (makeApiRequest oracle).result = some a := by
  rcases fetchFrom_result_cases oracle 0 3 with h | ⟨i, a, h1, h2, h3, h4⟩
  · exact Or.inl h
  · exact Or.inr ⟨i, a, by omega, h3, h4⟩

/-- C6 counterexample: with every attempt failing retryably (HTTP 500),
the call performs the sleeps 1s, 2s and 4s before returning — the source
also sleeps `2^2 = 4` seconds after the third, final failure — so it does
not block for exactly the delays (1s, 2s) that the claim states. -/
theorem c6_counterexample :
    (makeApiRequest (fun _ => Attempt.httpError 500) : FetchResult Nat).sleeps = [1, 2, 4] ∧
    (makeApiRequest (fun _ => Attempt.httpError 500) : FetchResult Nat).sleeps ≠ [1, 2] := by
  constructor <;> decide

/-- C6 amended: (1) an uncached fetch failing with HTTP 500 on attempts
1 and 2 and succeeding on attempt 3 returns the successful payload after
sleeping exactly 1s then 2s (so it blocked at least 1s + 2s); (2) an
uncached fetch all 3 of whose attempts fail retryably returns the empty
result after sleeping exactly 1s, 2s and 4s — including a final
`2^2`-second backoff sleep after the last attempt, which the original
claim omits. -/
theorem c6_backoff_delays :
    (∀ (oracle : Nat → Attempt Nat) (a : Nat),
      oracle 0 = .httpError 500 → oracle 1 = .httpError 500 → oracle 2 = .success a →
      makeApiRequest oracle = ⟨some a, [1, 2], 3⟩) ∧
    (∀ oracle : Nat → Attempt Nat,
      (∀ i, i < 3 → retryableFail (oracle i) = true) →
      makeApiRequest oracle = ⟨none, [1, 2, 4], 3⟩) := by
  constructor
  · intro oracle a h0 h1 h2
    simp [makeApiRequest, fetchFrom, h0, h1, h2, nonRetryable]
  · intro oracle h
    have := fetchFrom_all_retryable oracle 0 3 (fun i h1 h2 => h i (by omega))
    rw [makeApiRequest, this]
    simp [pows]

theorem c6_witness :
    ((fun i => if i = 2 then Attempt.success 42 else Attempt.httpError 500 : Nat → Attempt Nat) 0
        = .httpError 500 ∧
      makeApiRequest (fun i => if i = 2 then Attempt.success 42 else Attempt.httpError 500)
        = ⟨some 42, [1, 2], 3⟩) ∧
    ((∀ i, i < 3 → retryableFail ((fun _ => Attempt.netError : Nat → Attempt Nat) i) = true) ∧
      makeApiRequest (fun _ => Attempt.netError : Nat → Attempt Nat) = ⟨none, [1, 2, 4], 3⟩) :=
  ⟨⟨rfl, c6_backoff_delays.1 _ 42 rfl rfl rfl⟩,
    ⟨by decide, c6_backoff_delays.2 _ (by decide)⟩⟩

/-! ## Relational data model (`models.py`)

Row types mirror the SQLAlchemy models.  Ids are drawn from a single
fresh-id counter `nextId` of the database state (each inserted row gets a
fresh generated identifier, as with autoincrement primary keys).  Columns
declared `nullable=False` are non-`Option` fields; nullable columns are
`Option` fields. -/

structure SourceRow where
  id : Nat
  name : String
  url : String
deriving DecidableEq

structure SeriesRow where
  id : Nat
  title : String
  publisher : Option String
  startYear : Option Int
  coverUrl : Option String
deriving DecidableEq

structure IssueRow where
  id : Nat
  seriesId : Nat
  issueNumber : String
  coverDate : Option String
  coverUrl : Option String
deriving DecidableEq

structure XrefRow where
  id : Nat
  sourceId : Nat
  entityType : String
  entityId : Nat
  externalId : String
deriving DecidableEq

/-- One Comic Vine volume object as consumed by the source
(`cv_volume['id']`, `.get("name")`, `.get("publisher", {}).get("name")`,
`.get("start_year")`, `.get("image", {}).get("original_url")`). -/
structure CVVolume where
  vid : Nat
  name : Option String
  publisherName : Option String
  startYear : Option Int
  imageUrl : Option String
deriving DecidableEq

/-- One Comic Vine issue object as consumed by the source. -/
structure CVIssueData where
  iid : Nat
  issueNumber : Option String
  coverDate : Option String
  imageUrl : Option String
deriving DecidableEq

/-- One GoCollect pricing payload as consumed by the source
(`pricing_data.get('value')`). -/
structure GoPayload where
  value : Option ℚ
deriving DecidableEq

/-- One eBay `itemSummaries` entry as consumed by the source. -/
structure EbayItem where
  itemId : Option String
  title : Option String
  itemWebUrl : Option String
  priceValue : Option ℚ
  priceCurrency : Option String
  condition : Option String
deriving DecidableEq

/-- Raw payload stored in a `PriceSnapshot` row: either one GoCollect
pricing dict or the full raw eBay listing array. -/
inductive Payload where
  | go (p : GoPayload)
  | ebay (items : List EbayItem)
deriving DecidableEq

structure SnapshotRow where
  id : Nat
  issueId : Nat
  sourceId : Nat
  payload : Payload
deriving DecidableEq

structure GradedPriceRow where
  id : Nat
  snapshotId : Nat
  gradeLabel : String
  fmvUsd : Option ℚ
  conservativeValueUsd : Option ℚ
deriving DecidableEq

/-- A persisted `MarketListing` row.  `listing_id` and `title` are
`nullable=False` columns, so a persisted row always carries them. -/
structure ListingRow where
  id : Nat
  snapshotId : Nat
  listingId : String
  title : String
  url : Option String
  priceUsd : Option ℚ
  currency : Option String
  condition : Option String
deriving DecidableEq

/-- Database state: one list per table, rows in insertion order, plus the
fresh-id counter. -/
structure DB where
  sources : List SourceRow
  series : List SeriesRow
  issues : List IssueRow
  xrefs : List XrefRow
  snapshots : List SnapshotRow
  gradedPrices : List GradedPriceRow
  listings : List ListingRow
  nextId : Nat
deriving DecidableEq

/-- Insert a `Source` row (unique name is guarded by the caller's
query-then-insert pattern; in this sequential model the guard has already
established absence). -/
def dbInsertSource (db : DB) (name url : String) : DB × SourceRow :=
  let row : SourceRow := { id := db.nextId, name := name, url := url }
  ({ db with sources := db.sources ++ [row], nextId := db.nextId + 1 }, row)

/-- Insert a `Series` row (no violable constraint: `canonical_id` is never
set by the source). -/
def dbInsertSeries (db : DB) (title : String) (publisher : Option String)
    (startYear : Option Int) (coverUrl : Option String) : DB × SeriesRow :=
  let row : SeriesRow :=
    { id := db.nextId, title := title, publisher := publisher,
      startYear := startYear, coverUrl := coverUrl }
  ({ db with series := db.series ++ [row], nextId := db.nextId + 1 }, row)

/-- Insert an `Issue` row; `none` models the unique-constraint violation
on `(series_id, issue_number)` raised at flush. -/
def dbInsertIssue (db : DB) (seriesId : Nat) (n : String)
    (coverDate coverUrl : Option String) : Option (DB × IssueRow) :=
  if db.issues.any (fun i => i.seriesId == seriesId && i.issueNumber == n) then none
  else
    let row : IssueRow :=
      { id := db.nextId, seriesId := seriesId, issueNumber := n,
        coverDate := coverDate, coverUrl := coverUrl }
    some ({ db with issues := db.issues ++ [row], nextId := db.nextId + 1 }, row)

/-- Insert a `SourceXref` row; `none` models the unique-constraint
violation on `(source_id, entity_type, external_id)` raised at flush. -/
def dbInsertXref (db : DB) (sourceId : Nat) (entityType : String)
    (entityId : Nat) (externalId : String) : Option (DB × XrefRow) :=
  if db.xrefs.any (fun x =>
      x.sourceId == sourceId && x.entityType == entityType &&
      x.externalId == externalId) then none
  else
    let row : XrefRow :=
      { id := db.nextId, sourceId := sourceId, entityType := entityType,
        entityId := entityId, externalId := externalId }
    some ({ db with xrefs := db.xrefs ++ [row], nextId := db.nextId + 1 }, row)

/-- Insert a `PriceSnapshot` row (payload always provided by the source). -/
def dbInsertSnapshot (db : DB) (issueId sourceId : Nat) (payload : Payload) :
    DB × SnapshotRow :=
  let row : SnapshotRow :=
    { id := db.nextId, issueId := issueId, sourceId := sourceId, payload := payload }
  ({ db with snapshots := db.snapshots ++ [row], nextId := db.nextId + 1 }, row)

/-- Insert a `GradedPrice` row (no violable constraint). -/
def dbInsertGradedPrice (db : DB) (snapshotId : Nat) (gradeLabel : String)
    (fmv conservative : Option ℚ) : DB × GradedPriceRow :=
  let row : GradedPriceRow :=
    { id := db.nextId, snapshotId := snapshotId, gradeLabel := gradeLabel,
      fmvUsd := fmv, conservativeValueUsd := conservative }
  ({ db with gradedPrices := db.gradedPrices ++ [row], nextId := db.nextId + 1 }, row)

/-- Insert the `MarketListing` rows built from the listing items, in
order; `none` models the NOT NULL violation raised at the commit's flush
when an item lacks `itemId` or `title`. -/
def dbInsertListings (db : DB) (snapId : Nat) : List EbayItem → Option DB
  | [] => some db
  | it :: rest =>
    match it.itemId, it.title with
    | some lid, some t =>
      let row : ListingRow :=
        { id := db.nextId, snapshotId := snapId, listingId := lid, title := t,
          url := it.itemWebUrl, priceUsd := it.priceValue,
          currency := it.priceCurrency, condition := it.condition }
      dbInsertListings
        { db with listings := db.listings ++ [row], nextId := db.nextId + 1 }
        snapId rest
    | _, _ => none

/-! ## Session model -/

/-- A SQLAlchemy session: the durable state, the in-transaction state, and
the schedule of injected persistence faults (connection failures etc.),
one entry consumed per flush/commit point. -/
structure Sess where
  committed : DB
  current : DB
  faults : List Bool
deriving DecidableEq

/-- `db.rollback()`. -/
def rollback (s : Sess) : Sess := { s with current := s.committed }

/-- `db.commit()` (the durable publication part; constraint checks of the
commit's implicit flush are modelled at the call sites). -/
def commitS (s : Sess) : Sess := { s with committed := s.current }

/-- Consume the next entry of the fault schedule; an exhausted schedule
means no further injected faults. -/
def popFault (s : Sess) : Bool × Sess :=
  match s.faults with
  | [] => (false, s)
  | b :: rest => (b, { s with faults := rest })

/-- Result of an operation that may raise `SQLAlchemyError` to its caller:
`err` carries the session as left behind by the raising operation. -/
inductive DbResult (α : Type) where
  | ok (s : Sess) (a : α)
  | err (s : Sess)
deriving DecidableEq

/-- The session carried by a `DbResult`. -/
def DbResult.sess : DbResult α → Sess
  | .ok s _ => s
  | .err s => s

/-! ## Source management and catalog reconciliation (`data_manager.py`) -/

/-- `get_or_create_source`: lookup by name, else insert and commit; a
persistence fault rolls back and re-raises to the caller. -/
def get_or_create_source (s : Sess) (name url : String) : DbResult SourceRow :=
  match s.current.sources.find? (fun src => src.name == name) with
  | some src => .ok s src
  | none =>
    let p := popFault s
    if p.1 then .err (rollback p.2)
    else
      let ins := dbInsertSource p.2.current name url
      .ok (commitS { p.2 with current := ins.1 }) ins.2

/-- The environment seen by the catalog reconciliation: the results of
`search_comicvine_volume` and `get_comicvine_issues_for_volume` (both go
through the fetch layer; a missing credential or an exhausted fetch shows
up as an empty result list). -/
structure CatalogEnv where
  searchVolumes : String → List CVVolume
  issuesForVolume : Nat → List CVIssueData

/-- The local series lookup
`db.query(Series).filter(Series.title.ilike(f"%{series_title}%")).first()`. -/
def findSeriesIlike (db : DB) (pat : String) : Option SeriesRow :=
  db.series.find? (fun sr => ilike sr.title pat)

/-- The series a stored issue row belongs to (`Issue.series`, the join on
`series_id`). -/
def seriesOf (db : DB) (i : IssueRow) : Option SeriesRow :=
  db.series.find? (fun sr => sr.id == i.seriesId)

/-- The optimized fast-path lookup of `get_or_create_issue_from_comicvine`:
first issue (in insertion order) whose `issue_number` matches exactly and
whose series title matches the case-insensitive substring pattern. -/
def fastLookup (db : DB) (title n : String) : Option IssueRow :=
  db.issues.find? (fun i =>
    i.issueNumber == n &&
      (match seriesOf db i with
       | some sr => ilike sr.title title
       | none => false))

/-- Outcome of a reconciliation step: the session left behind, the
returned value (`none` mirrors the Python `None`), and the number of
catalog-client fetch invocations performed. -/
structure RecoOut (α : Type) where
  sess : Sess
  result : Option α
  clientCalls : Nat
deriving DecidableEq

/-- `_get_or_create_series_from_comicvine`: local substring lookup, else
search the catalog, take the first candidate, insert the `Series` row
(flush), get-or-create the "Comic Vine" source (which commits when it has
to insert), insert the `SourceXref` row and commit.  Any
`SQLAlchemyError` is caught here: rollback and return `None`. -/
def getOrCreateSeriesCV (env : CatalogEnv) (s : Sess) (title : String) :
    RecoOut SeriesRow :=
  match findSeriesIlike s.current title with
  | some sr => ⟨s, some sr, 0⟩
  | none =>
    match env.searchVolumes title with
    | [] => ⟨s, none, 1⟩
    | v :: _ =>
      let p1 := popFault s
      if p1.1 then ⟨rollback p1.2, none, 1⟩
      else
        let insSeries :=
          dbInsertSeries p1.2.current (v.name.getD title) v.publisherName
            v.startYear v.imageUrl
        let s2 : Sess := { p1.2 with current := insSeries.1 }
        match get_or_create_source s2 "Comic Vine" "https://comicvine.gamespot.com" with
        | .err s3 => ⟨rollback s3, none, 1⟩
        | .ok s3 src =>
          let p2 := popFault s3
          if p2.1 then ⟨rollback p2.2, none, 1⟩
          else
            match dbInsertXref p2.2.current src.id "series" insSeries.2.id
                (toString v.vid) with
            | none => ⟨rollback p2.2, none, 1⟩
            | some ins2 =>
              ⟨commitS { p2.2 with current := ins2.1 }, some insSeries.2, 1⟩

/-- `_get_or_create_issue_for_series`: get-or-create the "Comic Vine"
source (a raise here propagates to the top-level handler, which rolls back
and returns `None`), look up the series' xref, list the volume's issues,
find the exact `issue_number` match, insert the `Issue` row (flush), insert
its `SourceXref` row and commit; `SQLAlchemyError` in that last block is
caught: rollback and return `None`.  A non-numeric stored external id makes
`int(...)` raise, which the top-level generic handler turns into rollback
and `None`. -/
def getOrCreateIssueForSeries (env : CatalogEnv) (s : Sess) (sr : SeriesRow)
    (n : String) : RecoOut IssueRow :=
  match get_or_create_source s "Comic Vine" "https://comicvine.gamespot.com" with
  | .err s1 => ⟨rollback s1, none, 0⟩
  | .ok s1 src =>
    match s1.current.xrefs.find? (fun x =>
        x.sourceId == src.id && x.entityType == "series" && x.entityId == sr.id) with
    | none => ⟨s1, none, 0⟩
    | some xrefSeries =>
      match parseNat xrefSeries.externalId with
      | none => ⟨rollback s1, none, 0⟩
      | some vid =>
        let cvIssues := env.issuesForVolume vid
        match cvIssues.find? (fun iss => iss.issueNumber == some n) with
        | none => ⟨s1, none, 1⟩
        | some cvIss =>
          let p1 := popFault s1
          match (if p1.1 then none
                 else dbInsertIssue p1.2.current sr.id (cvIss.issueNumber.getD n)
                   cvIss.coverDate cvIss.imageUrl) with
          | none => ⟨rollback p1.2, none, 1⟩
          | some ins1 =>
            let s2 : Sess := { p1.2 with current := ins1.1 }
            let p2 := popFault s2
            match (if p2.1 then none
                   else dbInsertXref p2.2.current src.id "issue" ins1.2.id
                     (toString cvIss.iid)) with
            | none => ⟨rollback p2.2, none, 1⟩
            | some ins2 =>
              ⟨commitS { p2.2 with current := ins2.1 }, some ins1.2, 1⟩

/-- `get_or_create_issue_from_comicvine`: optimized local fast-path lookup,
else find-or-create the series, then find-or-create the issue for that
series.  All `SQLAlchemyError`/generic exceptions of the helpers are
already turned into rollback-and-`None` in the helpers' embeddings. -/
def get_or_create_issue_from_comicvine (env : CatalogEnv) (s : Sess)
    (title n : String) : RecoOut IssueRow :=
  match fastLookup s.current title n with
  | some i => ⟨s, some i, 0⟩
  | none =>
    let so := getOrCreateSeriesCV env s title
    match so.result with
    | none => ⟨so.sess, none, so.clientCalls⟩
    | some sr =>
      let io := getOrCreateIssueForSeries env so.sess sr n
      ⟨io.sess, io.result, so.clientCalls + io.clientCalls⟩

/-! ## Pricing ingestion (`update_pricing_for_issue` and helpers) -/

/-- The environment seen by the pricing engine: the results of
`get_gocollect_pricing` (keyed by external id and grade label; `none` is
the empty dict returned on missing credential or exhausted fetch) and of
`search_ebay_listings` (keyed by the query string). -/
structure PricingEnv where
  gocollect : String → String → Option GoPayload
  ebay : String → List EbayItem

/-- The eBay search query `f'"{issue.series.title}" "{issue.issue_number}"'`. -/
def ebayQuery (seriesTitle issueNumber : String) : String :=
  "\"" ++ seriesTitle ++ "\" \"" ++ issueNumber ++ "\""

/-- `_update_gocollect_pricing`: the source get-or-create and the xref
lookup run before the `try` block, so a raise there propagates (`err`).
Inside the `try`: fetch pricing, skip on empty dict or falsy `value`,
insert the snapshot (flush), insert the `GradedPrice` row with
`conservative = value * 0.8` and commit; any error there is caught:
rollback, return normally. -/
def update_gocollect_pricing (env : PricingEnv) (s : Sess) (issue : IssueRow)
    (gradeStr : String) : DbResult Unit :=
  match get_or_create_source s "GoCollect" "https://gocollect.com" with
  | .err s1 => .err s1
  | .ok s1 src =>
    match s1.current.xrefs.find? (fun x =>
        x.sourceId == src.id && x.entityType == "issue" && x.entityId == issue.id) with
    | none => .ok s1 ()
    | some xref =>
      match env.gocollect xref.externalId gradeStr with
      | none => .ok s1 ()
      | some payload =>
        match payload.value with
        | none => .ok s1 ()
        | some v =>
          if v = 0 then .ok s1 ()
          else
            let p1 := popFault s1
            if p1.1 then .ok (rollback p1.2) ()
            else
              let ins1 := dbInsertSnapshot p1.2.current issue.id src.id (.go payload)
              let s2 : Sess := { p1.2 with current := ins1.1 }
              let p2 := popFault s2
              if p2.1 then .ok (rollback p2.2) ()
              else
                let ins2 := dbInsertGradedPrice p2.2.current ins1.2.id gradeStr
                  (some v) (some (v * (4 / 5 : ℚ)))
                .ok (commitS { p2.2 with current := ins2.1 }) ()

/-- `_update_ebay_listings`: everything runs inside the `try` block, so
every error (including a raise out of the source get-or-create, a missing
series relationship, an injected fault, or the NOT NULL violation on
`listing_id`/`title` at the commit's flush) is caught: rollback and return.
Otherwise: search listings, skip when empty, insert one snapshot holding
the full raw listing array (flush), add one `MarketListing` row per item
and commit. -/
def update_ebay_listings (env : PricingEnv) (s : Sess) (issue : IssueRow) : Sess :=
  match seriesOf s.current issue with
  | none => rollback s
  | some sr =>
    match env.ebay (ebayQuery sr.title issue.issueNumber) with
    | [] => s
    | items =>
      match get_or_create_source s "eBay" "https://www.ebay.com" with
      | .err s1 => rollback s1
      | .ok s1 src =>
        let p1 := popFault s1
        if p1.1 then rollback p1.2
        else
          let ins1 := dbInsertSnapshot p1.2.current issue.id src.id (.ebay items)
          let s2 : Sess := { p1.2 with current := ins1.1 }
          let p2 := popFault s2
          match (if p2.1 then none else dbInsertListings p2.2.current ins1.2.id items) with
          | none => rollback p2.2
          | some db2 => commitS { p2.2 with current := db2 }

/-- `update_pricing_for_issue`: run the GoCollect sub-flow, then the eBay
sub-flow.  There is no handler here, so a raise out of the GoCollect
sub-flow propagates (`err`) and the eBay sub-flow does not run.  (The
formatting of the float grade to one decimal place is abstracted: the
already-formatted grade label string is taken as input.) -/
def update_pricing_for_issue (env : PricingEnv) (s : Sess) (issue : IssueRow)
    (gradeStr : String) : DbResult Unit :=
  match update_gocollect_pricing env s issue gradeStr with
  | .err s1 => .err s1
  | .ok s1 _ => .ok (update_ebay_listings env s1 issue) ()

/-- Whether a `DbResult` is a propagated raise. -/
def DbResult.isErr : DbResult α → Bool
  | .ok _ _ => false
  | .err _ => true

/-! ## Concrete fixtures used by counterexamples and witnesses -/

/-- The empty database. -/
def db0 : DB := ⟨[], [], [], [], [], [], [], 1⟩

/-- A fresh fault-free session over the empty database. -/
def sess0 : Sess := ⟨db0, db0, []⟩

/-- A catalog volume whose name differs from some queries that find it. -/
def volSpider : CVVolume := ⟨7, some "Spider-Man", some "Marvel", some 1963, none⟩

/-- A catalog issue numbered "101" in `volSpider`. -/
def cvIssue101 : CVIssueData := ⟨9, some "101", none, none⟩

/-- A catalog environment in which both the query "Spider-Man" and the
misspelt query "Spoderman" return `volSpider` as first (fuzzy) result. -/
def envSpider : CatalogEnv :=
  ⟨fun q => if q = "Spider-Man" ∨ q = "Spoderman" then [volSpider] else [],
   fun v => if v = 7 then [cvIssue101] else []⟩

/-- A catalog environment for the series-creation fault scenario. -/
def envX : CatalogEnv :=
  ⟨fun q => if q = "X" then [⟨7, some "X", none, none, none⟩] else [], fun _ => []⟩

/-- Session over the empty database whose third persistence operation
(the series xref commit) suffers an injected connection failure. -/
def sessC2 : Sess := ⟨db0, db0, [false, false, true]⟩

/-- A local series row used by the pricing fixtures. -/
def seriesS : SeriesRow := ⟨1, "S", none, none, none⟩

/-- A local issue row of `seriesS` used by the pricing fixtures. -/
def issueS : IssueRow := ⟨2, 1, "1", none, none⟩

/-- Database holding just `seriesS` and `issueS`. -/
def dbS : DB := ⟨[], [seriesS], [issueS], [], [], [], [], 3⟩

/-- An eBay listing item with every consumed field present. -/
def goodItem : EbayItem :=
  ⟨some "A", some "T", some "http://x", some 5, some "USD", some "good"⟩

/-- An eBay listing item lacking the `title` field (a NOT NULL column of
`market_listing`). -/
def badItem : EbayItem := ⟨some "B", none, none, none, none, none⟩

/-- Pricing environment: no GoCollect data, one complete eBay listing. -/
def envP : PricingEnv := ⟨fun _ _ => none, fun _ => [goodItem]⟩

/-- Pricing environment returning one eBay listing with a missing title. -/
def envPbad : PricingEnv := ⟨fun _ _ => none, fun _ => [badItem]⟩

/-- Session over `dbS` whose first persistence operation (the GoCollect
source creation) suffers an injected connection failure. -/
def sessC3 : Sess := ⟨dbS, dbS, [true]⟩

/-- Fault-free session over `dbS`. -/
def sessS : Sess := ⟨dbS, dbS, []⟩

/-- Database holding `seriesS`, `issueS`, the GoCollect source and the
issue's GoCollect cross-reference. -/
def dbG : DB :=
  ⟨[⟨3, "GoCollect", "https://gocollect.com"⟩], [seriesS], [issueS],
    [⟨4, 3, "issue", 2, "93358"⟩], [], [], [], 5⟩

/-- Fault-free session over `dbG`. -/
def sessG : Sess := ⟨dbG, dbG, []⟩

/-- Pricing environment with a GoCollect fair market value of 10 USD and
no eBay listings. -/
def envG : PricingEnv :=
  ⟨fun cid g => if cid = "93358" ∧ g = "8.0" then some ⟨some 10⟩ else none,
   fun _ => []⟩

/-! ## Counterexamples -/

/-- C1 counterexample: with the misspelt query "Spoderman" (whose catalog
search fuzzily returns the volume named "Spider-Man"), the first
reconciliation succeeds, but the created series title does not contain the
queried title, so the second identical call misses the fast path, consults
the catalog client again, and then fails on the xref uniqueness constraint:
it returns `None` instead of the same Issue, refuting the claim. -/
theorem c1_counterexample :
    (get_or_create_issue_from_comicvine envSpider sess0 "Spoderman" "101").result.isSome
        = true ∧
    (get_or_create_issue_from_comicvine envSpider
        (get_or_create_issue_from_comicvine envSpider sess0 "Spoderman" "101").sess
        "Spoderman" "101").result = none ∧
    (get_or_create_issue_from_comicvine envSpider
        (get_or_create_issue_from_comicvine envSpider sess0 "Spoderman" "101").sess
        "Spoderman" "101").clientCalls ≠ 0 := by
  refine ⟨by decide, by decide, by decide⟩

/-- C2 counterexample: on a database where the "Comic Vine" source row
does not yet exist, `get_or_create_source` commits mid-sub-step (durably
publishing the freshly flushed Series row); when the subsequent xref
commit then fails (injected connection failure, third fault entry), the
rollback cannot undo the earlier commit: the run returns `None` with the
database containing a reconciliation-created Series and no SourceXref at
all — refuting the one-logical-unit claim. -/
theorem c2_counterexample :
    (getOrCreateSeriesCV envX sessC2 "X").result = none ∧
    (getOrCreateSeriesCV envX sessC2 "X").sess.committed.series.length = 1 ∧
    (getOrCreateSeriesCV envX sessC2 "X").sess.committed.xrefs = [] := by
  refine ⟨by decide, by decide, by decide⟩

/-- C3 counterexample: a database error inside the valuation sub-flow's
preamble (the GoCollect `get_or_create_source` call, which sits outside
the sub-flow's `try` block) propagates out of `update_pricing_for_issue`
(the call raises), and the eBay listings sub-flow never runs even though
the listings environment has a persistable item — refuting both the
fault-isolation and the never-raises parts of the claim. -/
theorem c3_counterexample :
    (update_pricing_for_issue envP sessC3 issueS "8.0").isErr = true ∧
    (update_pricing_for_issue envP sessC3 issueS "8.0").sess.committed.snapshots = [] ∧
    (update_pricing_for_issue envP sessC3 issueS "8.0").sess.committed.listings = [] ∧
    envP.ebay (ebayQuery "S" "1") ≠ [] := by
  refine ⟨by decide, by decide, by decide, by decide⟩

/-- C4 counterexample: a first reconciliation ("Spider-Man" #101) creates
the series xref (source 2, type "series", external id "7"); a second
reconciliation ("Spoderman" #101) whose creation would produce the same
triple observes the uniqueness conflict — and exactly one xref row indeed
results — but it does not recover by re-reading: it rolls back and returns
`None`, abandoning the reconciliation, refuting the recovery part of the
claim. -/
theorem c4_counterexample :
    (get_or_create_issue_from_comicvine envSpider sess0 "Spider-Man" "101").result.isSome
        = true ∧
    (get_or_create_issue_from_comicvine envSpider
        (get_or_create_issue_from_comicvine envSpider sess0 "Spider-Man" "101").sess
        "Spoderman" "101").result = none ∧
    ((get_or_create_issue_from_comicvine envSpider
        (get_or_create_issue_from_comicvine envSpider sess0 "Spider-Man" "101").sess
        "Spoderman" "101").sess.committed.xrefs.filter
      (fun x => x.entityType == "series" && x.externalId == "7")).length = 1 := by
  refine ⟨by decide, by decide, by decide⟩

/-- C9 counterexample: a non-empty eBay result whose single item lacks the
`title` field is not tolerated as a null: `title` is a NOT NULL column of
`market_listing`, the commit's flush fails, the whole sub-flow is rolled
back, and neither the snapshot nor any listing row is persisted — refuting
the missing-fields-tolerated part of the claim. -/
theorem c9_counterexample :
    envPbad.ebay (ebayQuery "S" "1") ≠ [] ∧
    (update_ebay_listings envPbad sessS issueS).committed.snapshots = [] ∧
    (update_ebay_listings envPbad sessS issueS).committed.listings = [] := by
  refine ⟨by decide, by decide, by decide⟩

/-! ## Session-level helper lemmas -/

theorem popFault_snd_committed (s : Sess) : (popFault s).2.committed = s.committed := by
  cases h : s.faults <;> simp [popFault, h]

theorem popFault_snd_current (s : Sess) : (popFault s).2.current = s.current := by
  cases h : s.faults <;> simp [popFault, h]

theorem popFault_nil (s : Sess) (h : s.faults = []) : popFault s = (false, s) := by
  simp [popFault, h]

theorem rollback_committed (s : Sess) : (rollback s).committed = s.committed := rfl

theorem commitS_committed (s : Sess) : (commitS s).committed = s.current := rfl

theorem gocs_found {s : Sess} {n u : String} {src : SourceRow}
    (h : s.current.sources.find? (fun x => x.name == n) = some src) :
    get_or_create_source s n u = .ok s src := by
  unfold get_or_create_source
  rw [h]

theorem gocs_new_err {s : Sess} {n u : String}
    (h : s.current.sources.find? (fun x => x.name == n) = none)
    (hb : (popFault s).1 = true) :
    get_or_create_source s n u = .err (rollback (popFault s).2) := by
  unfold get_or_create_source
  rw [h]
  simp [hb]

theorem gocs_new_ok {s : Sess} {n u : String}
    (h : s.current.sources.find? (fun x => x.name == n) = none)
    (hb : (popFault s).1 = false) :
    get_or_create_source s n u =
      .ok (commitS { (popFault s).2 with
            current := (dbInsertSource (popFault s).2.current n u).1 })
        (dbInsertSource (popFault s).2.current n u).2 := by
  unfold get_or_create_source
  rw [h]
  simp [hb]

theorem gocs_err_committed {s s1 : Sess} {n u : String}
    (h : get_or_create_source s n u = .err s1) :
    s1.committed = s.committed ∧ s1.current = s.committed := by
  rcases hfind : s.current.sources.find? (fun x => x.name == n) with _ | src
  · rcases hb : (popFault s).1 with _ | _
    · rw [gocs_new_ok hfind hb] at h; cases h
    · rw [gocs_new_err hfind hb] at h
      cases h
      constructor
      · rw [rollback_committed, popFault_snd_committed]
      · show (popFault s).2.committed = s.committed
        exact popFault_snd_committed s
  · rw [gocs_found hfind] at h; cases h

theorem gocs_ok_tables {s s1 : Sess} {n u : String} {src : SourceRow}
    (h : get_or_create_source s n u = .ok s1 src) (hcc : s.current = s.committed) :
    s1.current = s1.committed ∧
    s1.current.series = s.current.series ∧ s1.current.issues = s.current.issues ∧
    s1.current.xrefs = s.current.xrefs ∧ s1.current.snapshots = s.current.snapshots ∧
    s1.current.gradedPrices = s.current.gradedPrices ∧
    s1.current.listings = s.current.listings ∧
    s.current.nextId ≤ s1.current.nextId ∧
    (s.faults = [] → s1.faults = []) := by
  rcases hfind : s.current.sources.find? (fun x => x.name == n) with _ | src0
  · rcases hb : (popFault s).1 with _ | _
    · rw [gocs_new_ok hfind hb] at h
      cases h
      refine ⟨rfl, ?_⟩
      simp [dbInsertSource, commitS, popFault_snd_current]
      intro hf
      rw [popFault_nil s hf]
      exact hf
    · rw [gocs_new_err hfind hb] at h; cases h
  · rw [gocs_found hfind] at h
    cases h
    exact ⟨hcc, rfl, rfl, rfl, rfl, rfl, rfl, le_rfl, fun hf => hf⟩

/-! ## Conservative-value rounding -/

/-- Rounding to whole cents, the granularity of the `Numeric(12, 2)`
price columns: `round(x, 2)`. -/
def roundCents (q : ℚ) : ℚ := (round (q * 100) : ℤ) / 100

theorem roundCents_close (x : ℚ) : |x - roundCents x| ≤ 1 / 200 := by
  have h := abs_sub_round (x * 100)
  have e : x - roundCents x = (x * 100 - (round (x * 100) : ℤ)) / 100 := by
    rw [roundCents]; ring
  rw [e, abs_div, abs_of_pos (show (0 : ℚ) < 100 by norm_num)]
  rw [div_le_iff₀ (show (0 : ℚ) < 100 by norm_num)]
  calc |x * 100 - (round (x * 100) : ℤ)| ≤ 1 / 2 := h
    _ ≤ 1 / 200 * 100 := by norm_num

/-- Characterization of the GoCollect sub-flow's effect on the
`graded_price` table: it is either untouched or extended by exactly one
row whose conservative value is `0.8` times its fair market value. -/
theorem ugp_gradedPrices (env : PricingEnv) (s : Sess) (issue : IssueRow) (g : String)
    (hcc : s.current = s.committed) :
    (update_gocollect_pricing env s issue g).sess.committed.gradedPrices
        = s.committed.gradedPrices ∨
    ∃ idv snapv : Nat, ∃ v : ℚ,
      (update_gocollect_pricing env s issue g).sess.committed.gradedPrices
        = s.committed.gradedPrices ++
            [⟨idv, snapv, g, some v, some (v * (4 / 5))⟩] := by
  unfold update_gocollect_pricing
  cases hs : get_or_create_source s "GoCollect" "https://gocollect.com" with
  | err s1 =>
    left
    simp only [DbResult.sess]
    exact (gocs_err_committed hs).1 ▸ rfl
  | ok s1 src =>
    obtain ⟨h1, _, _, hx, _, hgp, _, _, _⟩ := gocs_ok_tables hs hcc
    have hs1gp : s1.committed.gradedPrices = s.committed.gradedPrices := by
      rw [← h1, hgp, hcc]
    rcases hxf : s1.current.xrefs.find? (fun x =>
        x.sourceId == src.id && x.entityType == "issue" && x.entityId == issue.id)
      with _ | xref
    · left; simp [hxf, DbResult.sess, hs1gp]
    · rcases hgo : env.gocollect xref.externalId g with _ | payload
      · left; simp [hxf, hgo, DbResult.sess, hs1gp]
      · rcases hv : payload.value with _ | v
        · left; simp [hxf, hgo, hv, DbResult.sess, hs1gp]
        · by_cases hz : v = 0
          · left; simp [hxf, hgo, hv, hz, DbResult.sess, hs1gp]
          · rcases hfl : s1.faults with _ | ⟨b1, rest1⟩
            · right
              refine ⟨s1.current.nextId + 1, s1.current.nextId, v, ?_⟩
              simp [hxf, hgo, hv, hz, hfl, popFault, DbResult.sess, commitS,
                dbInsertGradedPrice, dbInsertSnapshot, hs1gp, ← hs1gp, ← h1, hgp]
            · cases b1
              · rcases hfl2 : rest1 with _ | ⟨b2, rest2⟩
                · right
                  refine ⟨s1.current.nextId + 1, s1.current.nextId, v, ?_⟩
                  simp [hxf, hgo, hv, hz, hfl, hfl2, popFault, DbResult.sess, commitS,
                    dbInsertGradedPrice, dbInsertSnapshot, hs1gp, ← hs1gp, ← h1, hgp]
                · cases b2
                  · right
                    refine ⟨s1.current.nextId + 1, s1.current.nextId, v, ?_⟩
                    simp [hxf, hgo, hv, hz, hfl, hfl2, popFault, DbResult.sess, commitS,
                      dbInsertGradedPrice, dbInsertSnapshot, hs1gp, ← hs1gp, ← h1, hgp]
                  · left
                    simp [hxf, hgo, hv, hz, hfl, hfl2, popFault, DbResult.sess,
                      rollback, hs1gp]
              · left
                simp [hxf, hgo, hv, hz, hfl, popFault, DbResult.sess, rollback, hs1gp]

/-- C5: every GradedPrice row persisted by the valuation sub-flow (from a
transaction-clean session) carries `conservative_value_usd` equal to
`fmv_usd * 0.8` exactly (a fixed, non-configurable haircut), which is
within half a cent — currency rounding tolerance — of
`round(fmv_usd * 0.8, 2)`. -/
theorem c5_conservative_is_80_percent (env : PricingEnv) (s : Sess) (issue : IssueRow)
    (g : String) (hcc : s.current = s.committed) (row : GradedPriceRow)
    (hrow : row ∈ (update_gocollect_pricing env s issue g).sess.committed.gradedPrices) :
    row ∈ s.committed.gradedPrices ∨
    ∃ v : ℚ, row.fmvUsd = some v ∧ row.conservativeValueUsd = some (v * (4 / 5)) ∧
      |v * (4 / 5) - roundCents (v * (4 / 5))| ≤ 1 / 200 := by
  rcases ugp_gradedPrices env s issue g hcc with h | ⟨idv, snapv, v, h⟩
  · rw [h] at hrow
    exact Or.inl hrow
  · rw [h] at hrow
    rcases List.mem_append.1 hrow with h2 | h2
    · exact Or.inl h2
    · right
      have he : row = ⟨idv, snapv, g, some v, some (v * (4 / 5))⟩ := by
        simpa using h2
      subst he
      exact ⟨v, rfl, rfl, roundCents_close _⟩

theorem c5_witness :
    (sessG.current = sessG.committed ∧
      (⟨6, 5, "8.0", some 10, some 8⟩ : GradedPriceRow) ∈
        (update_gocollect_pricing envG sessG issueS "8.0").sess.committed.gradedPrices) ∧
    ((⟨6, 5, "8.0", some 10, some 8⟩ : GradedPriceRow) ∈ sessG.committed.gradedPrices ∨
      ∃ v : ℚ, (⟨6, 5, "8.0", some 10, some 8⟩ : GradedPriceRow).fmvUsd = some v ∧
        (⟨6, 5, "8.0", some 10, some 8⟩ : GradedPriceRow).conservativeValueUsd
          = some (v * (4 / 5)) ∧
        |v * (4 / 5) - roundCents (v * (4 / 5))| ≤ 1 / 200) :=
  ⟨⟨rfl, by with_unfolding_all decide⟩,
    c5_conservative_is_80_percent envG sessG issueS "8.0" rfl
      ⟨6, 5, "8.0", some 10, some 8⟩ (by with_unfolding_all decide)⟩

/-- Effect of `get_or_create_source` on tables other than `source`, for a
caller mid-transaction: all other tables of the in-transaction state are
untouched and the durable state either stays or becomes the current one
(when the insert branch commits). -/
theorem gocs_ok_mid {s s1 : Sess} {n u : String} {src : SourceRow}
    (h : get_or_create_source s n u = .ok s1 src) :
    s1.current.series = s.current.series ∧ s1.current.issues = s.current.issues ∧
    s1.current.xrefs = s.current.xrefs ∧ s1.current.snapshots = s.current.snapshots ∧
    s1.current.gradedPrices = s.current.gradedPrices ∧
    s1.current.listings = s.current.listings ∧
    s.current.nextId ≤ s1.current.nextId ∧
    (s.faults = [] → s1.faults = []) ∧
    (s1.committed = s.committed ∨ s1.committed = s1.current) := by
  rcases hfind : s.current.sources.find? (fun x => x.name == n) with _ | src0
  · rcases hb : (popFault s).1 with _ | _
    · rw [gocs_new_ok hfind hb] at h
      cases h
      refine ⟨by simp [dbInsertSource, commitS, popFault_snd_current],
        by simp [dbInsertSource, commitS, popFault_snd_current],
        by simp [dbInsertSource, commitS, popFault_snd_current],
        by simp [dbInsertSource, commitS, popFault_snd_current],
        by simp [dbInsertSource, commitS, popFault_snd_current],
        by simp [dbInsertSource, commitS, popFault_snd_current],
        by simp [dbInsertSource, commitS, popFault_snd_current],
        ?_, Or.inr rfl⟩
      intro hf
      show (popFault s).2.faults = []
      rw [popFault_nil s hf]
      exact hf
    · rw [gocs_new_err hfind hb] at h; cases h
  · rw [gocs_found hfind] at h
    cases h
    exact ⟨rfl, rfl, rfl, rfl, rfl, rfl, le_rfl, fun hf => hf, Or.inl rfl⟩
/-- The local-hit branch of `_get_or_create_series_from_comicvine`. -/
theorem seriesCV_found {env : CatalogEnv} {s : Sess} {title : String} {sr : SeriesRow}
    (h : findSeriesIlike s.current title = some sr) :
    getOrCreateSeriesCV env s title = ⟨s, some sr, 0⟩ := by
  unfold getOrCreateSeriesCV
  rw [h]

/-- Full characterization of a successful creation run of
`_get_or_create_series_from_comicvine`: the first catalog candidate
supplies the stored title (name, else the queried title as fallback), the
series and its xref rows are appended, the issue table is untouched, the
new series id is the fresh id, and the transaction ends clean. -/
theorem seriesCV_created_spec {env : CatalogEnv} {s : Sess} {title : String}
    {sr : SeriesRow}
    (hloc : findSeriesIlike s.current title = none)
    (hsr : (getOrCreateSeriesCV env s title).result = some sr) :
    ∃ v vs xr, env.searchVolumes title = v :: vs ∧
      sr.title = v.name.getD title ∧ sr.id = s.current.nextId ∧
      (getOrCreateSeriesCV env s title).sess.current
        = (getOrCreateSeriesCV env s title).sess.committed ∧
      (getOrCreateSeriesCV env s title).sess.current.series
        = s.current.series ++ [sr] ∧
      (getOrCreateSeriesCV env s title).sess.current.issues = s.current.issues ∧
      (getOrCreateSeriesCV env s title).sess.current.xrefs
        = s.current.xrefs ++ [xr] ∧
      xr.entityType = "series" ∧ xr.entityId = sr.id ∧
      xr.externalId = toString v.vid ∧
      s.current.nextId < (getOrCreateSeriesCV env s title).sess.current.nextId ∧
      (s.faults = [] → (getOrCreateSeriesCV env s title).sess.faults = []) := by
  unfold getOrCreateSeriesCV at hsr ⊢
  rcases hvol : env.searchVolumes title with _ | ⟨v, vs⟩
  · simp only [hloc, hvol] at hsr
    simp at hsr
  · simp only [hloc, hvol] at hsr ⊢
    refine ⟨v, vs, ?_⟩
    rcases hb1 : (popFault s).1 with _ | _
    · simp only [hb1, Bool.false_eq_true, if_false] at hsr ⊢
      split at hsr
      · simp at hsr
      · rename_i s3 src heq
        obtain ⟨hser, hiss, hxr, _, _, _, hnid, hfau, _⟩ := gocs_ok_mid heq
        rcases hb2 : (popFault s3).1 with _ | _
        · simp only [hb2, Bool.false_eq_true, if_false] at hsr ⊢
          split at hsr
          · simp at hsr
          · rename_i ins2 heq2
            unfold dbInsertXref at heq2
            split at heq2
            · simp at heq2
            · injection heq2 with heq3
              subst heq3
              injection hsr with hsr2
              subst hsr2
              refine ⟨XrefRow.mk ((popFault s3).2.current.nextId) src.id "series"
                  ((dbInsertSeries (popFault s).2.current (v.name.getD title)
                    v.publisherName v.startYear v.imageUrl).2.id)
                  (toString v.vid),
                trivial, by simp [dbInsertSeries],
                by simp [dbInsertSeries, popFault_snd_current], rfl,
                by simp [commitS, popFault_snd_current, hser, dbInsertSeries],
                by simp [commitS, popFault_snd_current, hiss, dbInsertSeries],
                by simp [commitS, popFault_snd_current, hxr, dbInsertSeries],
                rfl, rfl, rfl, ?_, ?_⟩
              · simp [commitS, popFault_snd_current, dbInsertSeries] at hnid ⊢
                omega
              · intro hf
                have hR : (popFault s).2.faults = [] := by
                  rw [popFault_nil s hf]; exact hf
                have h3 : s3.faults = [] := hfau hR
                simp [popFault_nil _ h3, h3, commitS]
        · simp [hb2] at hsr
    · simp [hb1] at hsr

/-- Full characterization of a successful run of
`_get_or_create_issue_for_series`: the new issue row is appended with the
exact requested issue number and the series' id, the series table is
untouched, and the transaction ends clean. -/
theorem issueCV_created_spec {env : CatalogEnv} {s1 : Sess} {sr : SeriesRow}
    {n : String} {i : IssueRow}
    (hsome : (getOrCreateIssueForSeries env s1 sr n).result = some i) :
    (getOrCreateIssueForSeries env s1 sr n).sess.current
      = (getOrCreateIssueForSeries env s1 sr n).sess.committed ∧
    (getOrCreateIssueForSeries env s1 sr n).sess.current.issues
      = s1.current.issues ++ [i] ∧
    i.issueNumber = n ∧ i.seriesId = sr.id ∧
    (getOrCreateIssueForSeries env s1 sr n).sess.current.series
      = s1.current.series ∧
    (s1.faults = [] → (getOrCreateIssueForSeries env s1 sr n).sess.faults = []) := by
  unfold getOrCreateIssueForSeries at hsome ⊢
  split at hsome
  · simp at hsome
  · rename_i s2 src heq
    obtain ⟨hser, hiss, hxr, _, _, _, hnid, hfau, _⟩ := gocs_ok_mid heq
    rcases hxf : s2.current.xrefs.find? (fun x =>
        x.sourceId == src.id && x.entityType == "series" && x.entityId == sr.id)
      with _ | xrefSeries
    · simp [hxf] at hsome
    · simp only [hxf] at hsome ⊢
      rcases hpn : parseNat xrefSeries.externalId with _ | vid
      · simp [hpn] at hsome
      · simp only [hpn] at hsome ⊢
        rcases hcf : (env.issuesForVolume vid).find? (fun iss => iss.issueNumber == some n)
          with _ | cvIss
        · simp [hcf] at hsome
        · simp only [hcf] at hsome ⊢
          have hnum : cvIss.issueNumber = some n := by
            have := List.find?_some hcf
            simpa using this
          rcases hb1 : (popFault s2).1 with _ | _
          · simp only [hb1, Bool.false_eq_true, if_false] at hsome ⊢
            split at hsome
            · simp at hsome
            · rename_i ins1 heq1
              unfold dbInsertIssue at heq1
              split at heq1
              · simp at heq1
              · injection heq1 with heq1e
                subst heq1e
                rcases hb2 : (popFault { (popFault s2).2 with
                    current := { (popFault s2).2.current with
                      issues := (popFault s2).2.current.issues ++
                        [⟨(popFault s2).2.current.nextId, sr.id, cvIss.issueNumber.getD n,
                          cvIss.coverDate, cvIss.imageUrl⟩],
                      nextId := (popFault s2).2.current.nextId + 1 } }).1 with _ | _
                · simp only [hb2, Bool.false_eq_true, if_false] at hsome ⊢
                  split at hsome
                  · simp at hsome
                  · rename_i ins2 heq2
                    unfold dbInsertXref at heq2
                    split at heq2
                    · simp at heq2
                    · injection heq2 with heq2e
                      subst heq2e
                      injection hsome with hse
                      subst hse
                      refine ⟨rfl, ?_, by simp [hnum], rfl, ?_, ?_⟩
                      · simp [commitS, popFault_snd_current, hiss]
                      · simp [commitS, popFault_snd_current, hser]
                      · intro hf
                        have h2f : s2.faults = [] := hfau hf
                        have hbig : ({ (popFault s2).2 with
                            current := { (popFault s2).2.current with
                              issues := (popFault s2).2.current.issues ++
                                [⟨(popFault s2).2.current.nextId, sr.id,
                                  cvIss.issueNumber.getD n,
                                  cvIss.coverDate, cvIss.imageUrl⟩],
                              nextId := (popFault s2).2.current.nextId + 1 } } : Sess).faults
                            = [] := by
                          simp [popFault_nil _ h2f, h2f]
                        simp [commitS, popFault_nil _ hbig, hbig]
                · simp [hb2] at hsome
          · simp [hb1] at hsome

/-- C10: when reconciliation creates a new Series from the catalog (local
substring lookup missed and the search returned candidates), the persisted
`Series.title` is the first candidate's `name` field, falling back to the
caller-supplied title only when that field is absent — so the stored title
can differ from the queried `series_title`, and later lookups find it only
through the case-insensitive substring match. -/
theorem c10_series_title_from_first_candidate (env : CatalogEnv) (s : Sess)
    (title : String) (sr : SeriesRow)
    (hloc : findSeriesIlike s.current title = none)
    (hsr : (getOrCreateSeriesCV env s title).result = some sr) :
    ∃ v vs, env.searchVolumes title = v :: vs ∧ sr.title = v.name.getD title := by
  obtain ⟨v, vs, xr, hvol, htitle, _⟩ := seriesCV_created_spec hloc hsr
  exact ⟨v, vs, hvol, htitle⟩

/-- A catalog environment whose first candidate for the query "spider-man"
carries the longer name "The Amazing Spider-Man". -/
def envAmazing : CatalogEnv :=
  ⟨fun q => if q = "spider-man" then [⟨7, some "The Amazing Spider-Man", none, none, none⟩]
    else [], fun _ => []⟩

theorem c10_witness :
    (findSeriesIlike sess0.current "spider-man" = none ∧
      (getOrCreateSeriesCV envAmazing sess0 "spider-man").result
        = some ⟨1, "The Amazing Spider-Man", none, none, none⟩) ∧
    (∃ v vs, envAmazing.searchVolumes "spider-man" = v :: vs ∧
      (⟨1, "The Amazing Spider-Man", none, none, none⟩ : SeriesRow).title
        = v.name.getD "spider-man") ∧
    (⟨1, "The Amazing Spider-Man", none, none, none⟩ : SeriesRow).title ≠ "spider-man" ∧
    findSeriesIlike (getOrCreateSeriesCV envAmazing sess0 "spider-man").sess.current
        "spider-man"
      = some ⟨1, "The Amazing Spider-Man", none, none, none⟩ :=
  ⟨⟨by decide, by decide⟩,
    c10_series_title_from_first_candidate envAmazing sess0 "spider-man"
      ⟨1, "The Amazing Spider-Man", none, none, none⟩ (by decide) (by decide),
    by decide, by decide⟩

/-- C3 amended: whenever the valuation sub-flow's preamble succeeds — in
particular whenever the "GoCollect" source row already exists, so that the
get-or-create lookup outside the `try` block cannot raise — every error
inside the valuation sub-flow's body is caught within it, only its pending
writes are rolled back, `update_pricing_for_issue` returns normally, and
the eBay listings sub-flow still runs on the session the valuation
sub-flow left behind. -/
theorem c3_isolation_given_preamble (env : PricingEnv) (s : Sess) (issue : IssueRow)
    (g : String)
    (hgo : (s.current.sources.find? (fun x => x.name == "GoCollect")).isSome = true) :
    ∃ s1, update_gocollect_pricing env s issue g = DbResult.ok s1 () ∧
      update_pricing_for_issue env s issue g
        = DbResult.ok (update_ebay_listings env s1 issue) () := by
  obtain ⟨src, hsrc⟩ := Option.isSome_iff_exists.1 hgo
  have hok : ∃ s1, update_gocollect_pricing env s issue g = DbResult.ok s1 () := by
    unfold update_gocollect_pricing
    simp only [gocs_found hsrc]
    repeat' split
    all_goals exact ⟨_, rfl⟩
  obtain ⟨s1, h1⟩ := hok
  refine ⟨s1, h1, ?_⟩
  unfold update_pricing_for_issue
  simp only [h1]

theorem c3_witness :
    ((sessG.current.sources.find? (fun x => x.name == "GoCollect")).isSome = true) ∧
    (∃ s1, update_gocollect_pricing envP sessG issueS "8.0" = DbResult.ok s1 () ∧
      update_pricing_for_issue envP sessG issueS "8.0"
        = DbResult.ok (update_ebay_listings envP s1 issueS) ()) :=
  ⟨by decide, c3_isolation_given_preamble envP sessG issueS "8.0" (by decide)⟩

/-- The series-creation sub-step changed the durable state atomically:
either nothing of it was committed, or the new `Series` row and the
`SourceXref` row referencing it were committed together. -/
def seriesStepAtomic (s t : Sess) : Prop :=
  t.committed = s.committed ∨
  ∃ sr xr, t.committed.series = s.committed.series ++ [sr] ∧
    t.committed.xrefs = s.committed.xrefs ++ [xr] ∧
    xr.entityType = "series" ∧ xr.entityId = sr.id

/-- The issue-creation sub-step changed the durable `issue`/`source_xref`
tables atomically: either neither gained a row, or the new `Issue` row and
the `SourceXref` row referencing it were committed together. -/
def issueStepAtomic (s t : Sess) : Prop :=
  (t.committed.issues = s.committed.issues ∧ t.committed.xrefs = s.committed.xrefs) ∨
  ∃ ir xr, t.committed.issues = s.committed.issues ++ [ir] ∧
    t.committed.xrefs = s.committed.xrefs ++ [xr] ∧
    xr.entityType = "issue" ∧ xr.entityId = ir.id

/-- Atomicity of the series sub-step under the proviso that the
"Comic Vine" source row already exists (so `get_or_create_source` performs
no mid-sub-step commit), for every catalog environment and every fault
schedule. -/
theorem seriesStep_atomic (env : CatalogEnv) (s : Sess) (title : String)
    (hcc : s.current = s.committed)
    (hsrc : (s.current.sources.find? (fun x => x.name == "Comic Vine")).isSome = true) :
    seriesStepAtomic s (getOrCreateSeriesCV env s title).sess := by
  obtain ⟨src, hfound⟩ := Option.isSome_iff_exists.1 hsrc
  unfold getOrCreateSeriesCV
  rcases hl : findSeriesIlike s.current title with _ | sr0
  · rcases hvol : env.searchVolumes title with _ | ⟨v, vs⟩
    · left; rfl
    · rcases hb1 : (popFault s).1 with _ | _
      · simp only [hb1, Bool.false_eq_true, if_false]
        have hfound2 : ({ (popFault s).2 with
            current := (dbInsertSeries (popFault s).2.current (v.name.getD title)
              v.publisherName v.startYear v.imageUrl).1 } : Sess).current.sources.find?
              (fun x => x.name == "Comic Vine") = some src := by
          simp [dbInsertSeries, popFault_snd_current]
          exact hfound
        simp only [gocs_found hfound2]
        rcases hb2 : (popFault ({ (popFault s).2 with
            current := (dbInsertSeries (popFault s).2.current (v.name.getD title)
              v.publisherName v.startYear v.imageUrl).1 } : Sess)).1 with _ | _
        · simp only [hb2, Bool.false_eq_true, if_false]
          split
          · left
            simp [rollback, popFault_snd_committed]
          · rename_i ins2 heq2
            unfold dbInsertXref at heq2
            split at heq2
            · simp at heq2
            · injection heq2 with heq2e
              subst heq2e
              right
              refine ⟨(dbInsertSeries (popFault s).2.current (v.name.getD title)
                  v.publisherName v.startYear v.imageUrl).2,
                XrefRow.mk
                  ((popFault ({ (popFault s).2 with
                    current := (dbInsertSeries (popFault s).2.current (v.name.getD title)
                      v.publisherName v.startYear v.imageUrl).1 } : Sess)).2.current.nextId)
                  src.id "series"
                  ((dbInsertSeries (popFault s).2.current (v.name.getD title)
                    v.publisherName v.startYear v.imageUrl).2.id)
                  (toString v.vid), ?_, ?_, rfl, rfl⟩
              · simp [commitS, popFault_snd_current, dbInsertSeries, hcc]
              · simp [commitS, popFault_snd_current, dbInsertSeries, hcc]
        · left
          simp [hb2, rollback, popFault_snd_committed]
      · left
        simp [hb1, rollback, popFault_snd_committed]
  · left; rfl

/-- Unconditional atomicity of the issue sub-step (for every environment
and fault schedule): `get_or_create_source` runs before the issue row is
written, so its possible commit publishes only a `Source` row, and the
issue row plus its xref share the one commit at the end of the block. -/
theorem issueStep_atomic (env : CatalogEnv) (s : Sess) (sr : SeriesRow) (n : String)
    (hcc : s.current = s.committed) :
    issueStepAtomic s (getOrCreateIssueForSeries env s sr n).sess := by
  unfold getOrCreateIssueForSeries
  split
  · rename_i s2 heq
    left
    obtain ⟨h1, h2⟩ := gocs_err_committed heq
    simp [rollback, h1]
  · rename_i s2 src heq
    obtain ⟨_, hiss, hxr, _, _, _, _, _, hcom⟩ := gocs_ok_mid heq
    have hI : s2.committed.issues = s.committed.issues := by
      rcases hcom with h | h
      · rw [h]
      · rw [h, hiss, hcc]
    have hX : s2.committed.xrefs = s.committed.xrefs := by
      rcases hcom with h | h
      · rw [h]
      · rw [h, hxr, hcc]
    split
    · exact Or.inl ⟨hI, hX⟩
    · rename_i xrefSeries hxf
      split
      · left
        simp [rollback, hI, hX]
      · rename_i vid hpn
        rcases hcf : (env.issuesForVolume vid).find? (fun iss => iss.issueNumber == some n)
          with _ | cvIss
        · simp only [hcf]
          exact Or.inl ⟨hI, hX⟩
        · simp only [hcf]
          split
          · left
            simp [rollback, popFault_snd_committed, hI, hX]
          · rename_i ins1 heq1
            rcases hsplit1 : (if (popFault s2).1 = true then none
                else dbInsertIssue (popFault s2).2.current sr.id
                  (cvIss.issueNumber.getD n) cvIss.coverDate cvIss.imageUrl) with _ | ins1x
            · rw [hsplit1] at heq1; cases heq1
            · rw [hsplit1] at heq1
              injection heq1 with heq1e
              subst heq1e
              rcases hb1 : (popFault s2).1 with _ | _
              · rw [hb1] at hsplit1
                simp only [Bool.false_eq_true, if_false] at hsplit1
                unfold dbInsertIssue at hsplit1
                split at hsplit1
                · cases hsplit1
                · injection hsplit1 with hins
                  subst hins
                  split
                  · left
                    simp [rollback, popFault_snd_committed, hI, hX]
                  · rename_i ins2 heq2
                    rcases hsplit2 : (if (popFault { (popFault s2).2 with
                          current := { (popFault s2).2.current with
                            issues := (popFault s2).2.current.issues ++
                              [⟨(popFault s2).2.current.nextId, sr.id,
                                cvIss.issueNumber.getD n, cvIss.coverDate, cvIss.imageUrl⟩],
                            nextId := (popFault s2).2.current.nextId + 1 } }).1 = true
                        then none
                        else dbInsertXref (popFault { (popFault s2).2 with
                            current := { (popFault s2).2.current with
                              issues := (popFault s2).2.current.issues ++
                                [⟨(popFault s2).2.current.nextId, sr.id,
                                  cvIss.issueNumber.getD n, cvIss.coverDate, cvIss.imageUrl⟩],
                              nextId := (popFault s2).2.current.nextId + 1 } }).2.current
                          src.id "issue"
                          (⟨(popFault s2).2.current.nextId, sr.id, cvIss.issueNumber.getD n,
                            cvIss.coverDate, cvIss.imageUrl⟩ : IssueRow).id
                          (toString cvIss.iid)) with _ | ins2x
                    · rw [hsplit2] at heq2; cases heq2
                    · rw [hsplit2] at heq2
                      injection heq2 with heq2e
                      subst heq2e
                      rcases hb2 : (popFault ({ (popFault s2).2 with
                          current := { (popFault s2).2.current with
                            issues := (popFault s2).2.current.issues ++
                              [⟨(popFault s2).2.current.nextId, sr.id,
                                cvIss.issueNumber.getD n, cvIss.coverDate, cvIss.imageUrl⟩],
                            nextId := (popFault s2).2.current.nextId + 1 } } : Sess)).1 with _ | _
                      · rw [hb2] at hsplit2
                        simp only [Bool.false_eq_true, if_false] at hsplit2
                        unfold dbInsertXref at hsplit2
                        split at hsplit2
                        · cases hsplit2
                        · injection hsplit2 with hins2
                          subst hins2
                          right
                          refine ⟨⟨(popFault s2).2.current.nextId, sr.id,
                              cvIss.issueNumber.getD n, cvIss.coverDate, cvIss.imageUrl⟩,
                            XrefRow.mk ((popFault ({ (popFault s2).2 with
                          current := { (popFault s2).2.current with
                            issues := (popFault s2).2.current.issues ++
                              [⟨(popFault s2).2.current.nextId, sr.id,
                                cvIss.issueNumber.getD n, cvIss.coverDate, cvIss.imageUrl⟩],
                            nextId := (popFault s2).2.current.nextId + 1 } } : Sess)).2.current.nextId)
                              src.id "issue" ((popFault s2).2.current.nextId)
                              (toString cvIss.iid), ?_, ?_, rfl, rfl⟩
                          · simp [commitS, popFault_snd_current, hiss, ← hcc]
                          · simp [commitS, popFault_snd_current, hxr, ← hcc]
                      · rw [hb2] at hsplit2
                        simp at hsplit2
              · rw [hb1] at hsplit1
                simp at hsplit1

/-- C2 amended: from a transaction-clean session, (1) the series-creation
sub-step commits its Series row and xref row as one unit provided the
"Comic Vine" source row already exists when the sub-step begins (when it
does not, the source get-or-create commits mid-sub-step and the
counterexample applies); (2) the issue-creation sub-step is atomic
unconditionally. Both hold for every catalog environment and every
injected-fault schedule. -/
theorem c2_substep_atomicity :
    (∀ (env : CatalogEnv) (s : Sess) (title : String), s.current = s.committed →
      (s.current.sources.find? (fun x => x.name == "Comic Vine")).isSome = true →
      seriesStepAtomic s (getOrCreateSeriesCV env s title).sess) ∧
    (∀ (env : CatalogEnv) (s : Sess) (sr : SeriesRow) (n : String),
      s.current = s.committed →
      issueStepAtomic s (getOrCreateIssueForSeries env s sr n).sess) :=
  ⟨seriesStep_atomic, issueStep_atomic⟩

/-- Database holding only the "Comic Vine" source row. -/
def dbCV : DB := ⟨[⟨1, "Comic Vine", "https://comicvine.gamespot.com"⟩],
  [], [], [], [], [], [], 2⟩

/-- Fault-free session over `dbCV`. -/
def sCV : Sess := ⟨dbCV, dbCV, []⟩

theorem c2_witness :
    ((sCV.current = sCV.committed ∧
        (sCV.current.sources.find? (fun x => x.name == "Comic Vine")).isSome = true) ∧
      seriesStepAtomic sCV (getOrCreateSeriesCV envX sCV "X").sess) ∧
    (sCV.current = sCV.committed ∧
      issueStepAtomic sCV (getOrCreateIssueForSeries envX sCV seriesS "1").sess) :=
  ⟨⟨⟨rfl, by decide⟩, c2_substep_atomicity.1 envX sCV "X" rfl (by decide)⟩,
    ⟨rfl, c2_substep_atomicity.2 envX sCV seriesS "1" rfl⟩⟩

/-- C4 amended: when a reconciliation reaches series creation (local miss,
catalog hit) and the `(source_id, "series", external_id)` triple of its
would-be xref already exists, the insert is refused by the uniqueness
check, the sub-step observes the conflict, rolls back and returns `None`
— the durable state is unchanged, so exactly one `SourceXref` row with
that triple remains, and the process does not crash, but it abandons the
reconciliation instead of re-reading the existing row. -/
theorem c4_conflict_recovery (env : CatalogEnv) (s : Sess) (title : String)
    (v : CVVolume) (vs : List CVVolume) (src : SourceRow)
    (hloc : findSeriesIlike s.current title = none)
    (hvol : env.searchVolumes title = v :: vs)
    (hf : s.faults = [])
    (hsrc : s.current.sources.find? (fun x => x.name == "Comic Vine") = some src)
    (hconf : s.current.xrefs.any (fun x => x.sourceId == src.id &&
        x.entityType == "series" && x.externalId == toString v.vid) = true) :
    (getOrCreateSeriesCV env s title).result = none ∧
    (getOrCreateSeriesCV env s title).sess.committed = s.committed ∧
    (getOrCreateSeriesCV env s title).sess.current = s.committed := by
  unfold getOrCreateSeriesCV
  simp only [hloc, hvol]
  rw [popFault_nil s hf]
  simp only [Bool.false_eq_true, if_false]
  have hfound2 : ({ s with
      current := (dbInsertSeries s.current (v.name.getD title)
        v.publisherName v.startYear v.imageUrl).1 } : Sess).current.sources.find?
        (fun x => x.name == "Comic Vine") = some src := by
    simp only [dbInsertSeries]
    exact hsrc
  simp only [gocs_found hfound2]
  have hf2 : ({ s with
      current := (dbInsertSeries s.current (v.name.getD title)
        v.publisherName v.startYear v.imageUrl).1 } : Sess).faults = [] := hf
  rw [popFault_nil _ hf2]
  simp only [Bool.false_eq_true, if_false]
  have hx : dbInsertXref ({ s with
      current := (dbInsertSeries s.current (v.name.getD title)
        v.publisherName v.startYear v.imageUrl).1 } : Sess).current src.id "series"
      (dbInsertSeries s.current (v.name.getD title)
        v.publisherName v.startYear v.imageUrl).2.id (toString v.vid) = none := by
    unfold dbInsertXref
    have : (dbInsertSeries s.current (v.name.getD title)
        v.publisherName v.startYear v.imageUrl).1.xrefs = s.current.xrefs := by
      simp [dbInsertSeries]
    simp only [this]
    rw [if_pos hconf]
  simp only [hx]
  exact ⟨trivial, rfl, rfl⟩

/-- Database as left by a first successful reconciliation of the series:
the "Comic Vine" source, the series named by the catalog, and the series
xref with external id "7". -/
def dbC4 : DB := ⟨[⟨2, "Comic Vine", "https://comicvine.gamespot.com"⟩],
  [⟨1, "Spider-Man", some "Marvel", some 1963, none⟩], [],
  [⟨3, 2, "series", 1, "7"⟩], [], [], [], 4⟩

/-- Fault-free session over `dbC4`. -/
def s4 : Sess := ⟨dbC4, dbC4, []⟩

theorem c4_witness :
    (findSeriesIlike s4.current "Spoderman" = none ∧
      envSpider.searchVolumes "Spoderman" = [volSpider] ∧
      s4.faults = [] ∧
      s4.current.sources.find? (fun x => x.name == "Comic Vine")
        = some ⟨2, "Comic Vine", "https://comicvine.gamespot.com"⟩ ∧
      s4.current.xrefs.any (fun x =>
        x.sourceId == (2 : Nat) && x.entityType == "series" &&
          x.externalId == toString volSpider.vid) = true) ∧
    ((getOrCreateSeriesCV envSpider s4 "Spoderman").result = none ∧
      (getOrCreateSeriesCV envSpider s4 "Spoderman").sess.committed = s4.committed ∧
      (getOrCreateSeriesCV envSpider s4 "Spoderman").sess.current = s4.committed) :=
  ⟨⟨by decide, by decide, rfl, by decide, by decide⟩,
    c4_conflict_recovery envSpider s4 "Spoderman" volSpider []
      ⟨2, "Comic Vine", "https://comicvine.gamespot.com"⟩
      (by decide) (by decide) rfl (by decide) (by decide)⟩

/-- The NOT NULL constraints of `market_listing`: one item lacking
`itemId` or `title` makes the whole multi-row insert fail at flush. -/
theorem dbInsertListings_none {db : DB} {snapId : Nat} {items : List EbayItem}
    (h : ∃ it ∈ items, it.itemId = none ∨ it.title = none) :
    dbInsertListings db snapId items = none := by
  induction items generalizing db with
  | nil => simp at h
  | cons it rest ih =>
    obtain ⟨x, hx, hbad⟩ := h
    rcases List.mem_cons.1 hx with rfl | hx2
    · rcases hbad with hb | hb <;>
        · unfold dbInsertListings
          rcases h1 : x.itemId with _ | lid <;> rcases h2 : x.title with _ | t <;>
            simp_all
    · rcases h1 : it.itemId with _ | lid
      · unfold dbInsertListings
        rw [h1]
      · rcases h2 : it.title with _ | t
        · unfold dbInsertListings
          rw [h1, h2]
        · unfold dbInsertListings
          rw [h1, h2]
          exact ih ⟨x, hx2, hbad⟩

/-- When every item carries `itemId` and `title`, the multi-row insert
succeeds and appends one row per item, mapping id, title, URL, price,
currency and condition, with missing optional fields stored as nulls. -/
theorem dbInsertListings_good {items : List EbayItem}
    (hgood : ∀ it ∈ items, it.itemId.isSome ∧ it.title.isSome) (db : DB) (snapId : Nat) :
    ∃ db' rows, dbInsertListings db snapId items = some db' ∧
      db'.listings = db.listings ++ rows ∧
      db'.snapshots = db.snapshots ∧
      rows.length = items.length ∧
      ∀ p ∈ rows.zip items, p.1.snapshotId = snapId ∧
        some p.1.listingId = p.2.itemId ∧ some p.1.title = p.2.title ∧
        p.1.url = p.2.itemWebUrl ∧ p.1.priceUsd = p.2.priceValue ∧
        p.1.currency = p.2.priceCurrency ∧ p.1.condition = p.2.condition := by
  induction items generalizing db with
  | nil => exact ⟨db, [], rfl, by simp, rfl, rfl, by simp⟩
  | cons it rest ih =>
    obtain ⟨hid, htl⟩ := hgood it (List.mem_cons_self it rest)
    obtain ⟨lid, h1⟩ := Option.isSome_iff_exists.1 hid
    obtain ⟨t, h2⟩ := Option.isSome_iff_exists.1 htl
    have hgood2 : ∀ x ∈ rest, x.itemId.isSome ∧ x.title.isSome :=
      fun x hx => hgood x (List.mem_cons_of_mem it hx)
    set row : ListingRow := ⟨db.nextId, snapId, lid, t, it.itemWebUrl,
      it.priceValue, it.priceCurrency, it.condition⟩ with hrow
    obtain ⟨db', rows, ha, hb, hc, hd, he⟩ := ih hgood2
      { db with listings := db.listings ++ [row], nextId := db.nextId + 1 }
    refine ⟨db', row :: rows, ?_, ?_, ?_, ?_, ?_⟩
    · unfold dbInsertListings
      rw [h1, h2]
      exact ha
    · rw [hb]; simp
    · simpa using hc
    · simpa using hd
    · intro p hp
      rcases List.mem_cons.1 hp with rfl | hp2
      · exact ⟨rfl, h1.symm, h2.symm, rfl, rfl, rfl, rfl⟩
      · exact he p hp2

/-- Without injected faults, `get_or_create_source` cannot raise. -/
theorem gocs_nofault_ok (s : Sess) (n u : String) (hf : s.faults = []) :
    ∃ s1 src, get_or_create_source s n u = .ok s1 src := by
  rcases hfind : s.current.sources.find? (fun x => x.name == n) with _ | src
  · have hb : (popFault s).1 = false := by rw [popFault_nil s hf]
    exact ⟨_, _, gocs_new_ok hfind hb⟩
  · exact ⟨s, src, gocs_found hfind⟩

/-- When some fetched listing item lacks `itemId` or `title`, the listings
sub-flow persists nothing: the NOT NULL violation (or any earlier failure)
rolls the whole sub-flow back. -/
theorem ebay_bad_item_nothing_persisted (env : PricingEnv) (s : Sess)
    (issue : IssueRow) (sr : SeriesRow)
    (hcc : s.current = s.committed)
    (hser : seriesOf s.current issue = some sr)
    (hbad : ∃ it ∈ env.ebay (ebayQuery sr.title issue.issueNumber),
      it.itemId = none ∨ it.title = none) :
    (update_ebay_listings env s issue).committed.snapshots = s.committed.snapshots ∧
    (update_ebay_listings env s issue).committed.listings = s.committed.listings := by
  unfold update_ebay_listings
  simp only [hser]
  rcases hq : env.ebay (ebayQuery sr.title issue.issueNumber) with _ | ⟨it0, rest⟩
  · rw [hq] at hbad; simp at hbad
  · rw [hq] at hbad
    simp only [hq]
    split
    · rename_i s1 heq
      obtain ⟨h1, _⟩ := gocs_err_committed heq
      simp [rollback, h1]
    · rename_i s1 src heq
      obtain ⟨_, _, _, hsn, _, hli, _, _, hcom⟩ := gocs_ok_mid heq
      have hS : s1.committed.snapshots = s.committed.snapshots := by
        rcases hcom with h | h
        · rw [h]
        · rw [h, hsn, hcc]
      have hL : s1.committed.listings = s.committed.listings := by
        rcases hcom with h | h
        · rw [h]
        · rw [h, hli, hcc]
      rcases hb1 : (popFault s1).1 with _ | _
      · simp only [hb1, Bool.false_eq_true, if_false]
        rcases hb2 : (popFault ({ (popFault s1).2 with
            current := (dbInsertSnapshot (popFault s1).2.current issue.id src.id
              (Payload.ebay (it0 :: rest))).1 } : Sess)).1 with _ | _
        · have hnone : dbInsertListings
              (popFault ({ (popFault s1).2 with
                current := (dbInsertSnapshot (popFault s1).2.current issue.id src.id
                  (Payload.ebay (it0 :: rest))).1 } : Sess)).2.current
              (dbInsertSnapshot (popFault s1).2.current issue.id src.id
                (Payload.ebay (it0 :: rest))).2.id (it0 :: rest) = none :=
            dbInsertListings_none hbad
          simp only [hb2, Bool.false_eq_true, if_false, hnone]
          simp [rollback, popFault_snd_committed, hS, hL]
        · simp only [hb2, if_true]
          simp [rollback, popFault_snd_committed, hS, hL]
      · simp only [hb1, if_true]
        simp [rollback, popFault_snd_committed, hS, hL]

/-- Fault-free success path of the listings sub-flow: one snapshot row
holding the full raw listing array, then one `MarketListing` row per item
with the source's field mapping, optional fields kept as-is (nulls
tolerated for url/price/currency/condition). -/
theorem ebay_good_items_persisted (env : PricingEnv) (s : Sess) (issue : IssueRow)
    (sr : SeriesRow) (items : List EbayItem)
    (hcc : s.current = s.committed) (hf : s.faults = [])
    (hser : seriesOf s.current issue = some sr)
    (hq : env.ebay (ebayQuery sr.title issue.issueNumber) = items)
    (hne : items ≠ [])
    (hgood : ∀ it ∈ items, it.itemId.isSome ∧ it.title.isSome) :
    ∃ snap rows,
      (update_ebay_listings env s issue).committed.snapshots
        = s.committed.snapshots ++ [snap] ∧
      snap.payload = Payload.ebay items ∧ snap.issueId = issue.id ∧
      (update_ebay_listings env s issue).committed.listings
        = s.committed.listings ++ rows ∧
      rows.length = items.length ∧
      (∀ p ∈ rows.zip items, p.1.snapshotId = snap.id ∧
        some p.1.listingId = p.2.itemId ∧ some p.1.title = p.2.title ∧
        p.1.url = p.2.itemWebUrl ∧ p.1.priceUsd = p.2.priceValue ∧
        p.1.currency = p.2.priceCurrency ∧ p.1.condition = p.2.condition) := by
  unfold update_ebay_listings
  simp only [hser]
  rcases items with _ | ⟨it0, rest⟩
  · exact absurd rfl hne
  · simp only [hq]
    obtain ⟨s1, src, heq⟩ := gocs_nofault_ok s "eBay" "https://www.ebay.com" hf
    simp only [heq]
    obtain ⟨_, _, _, hsn, _, hli, _, hfau, hcom⟩ := gocs_ok_mid heq
    have hS : s1.committed.snapshots = s.committed.snapshots := by
      rcases hcom with h | h
      · rw [h]
      · rw [h, hsn, hcc]
    have hL : s1.committed.listings = s.committed.listings := by
      rcases hcom with h | h
      · rw [h]
      · rw [h, hli, hcc]
    have hf1 : s1.faults = [] := hfau hf
    rw [popFault_nil s1 hf1]
    simp only [Bool.false_eq_true, if_false]
    have hfBIG : ({ s1 with
        current := (dbInsertSnapshot s1.current issue.id src.id
          (Payload.ebay (it0 :: rest))).1 } : Sess).faults = [] := hf1
    rw [popFault_nil _ hfBIG]
    simp only [Bool.false_eq_true, if_false]
    obtain ⟨db', rows, ha, hb, hc, hd, he⟩ :=
      dbInsertListings_good hgood
        (dbInsertSnapshot s1.current issue.id src.id (Payload.ebay (it0 :: rest))).1
        (dbInsertSnapshot s1.current issue.id src.id (Payload.ebay (it0 :: rest))).2.id
    simp only [ha]
    refine ⟨⟨s1.current.nextId, issue.id, src.id, Payload.ebay (it0 :: rest)⟩,
      rows, ?_, rfl, rfl, ?_, by simpa using hd, ?_⟩
    · show db'.snapshots = s.committed.snapshots ++ _
      rw [hc]
      simp only [dbInsertSnapshot]
      rw [hsn, hcc]
    · show db'.listings = s.committed.listings ++ rows
      rw [hb]
      simp only [dbInsertSnapshot]
      rw [hli, hcc]
    · intro p hp
      exact he p hp

/-- C9 amended: for a non-empty eBay result, (1) if some item lacks
`itemId` or `title` (NOT NULL columns of `market_listing`), the write
fails and the whole sub-flow is rolled back — nothing is persisted — so
such missing fields are not tolerated; (2) if every item carries `itemId`
and `title`, one snapshot holding the full raw listing array is persisted
followed by one MarketListing row per item mapping id, title, URL, price,
currency and condition, with missing url/price/currency/condition fields
tolerated and stored as nulls. -/
theorem c9_listing_persistence :
    (∀ (env : PricingEnv) (s : Sess) (issue : IssueRow) (sr : SeriesRow),
      s.current = s.committed →
      seriesOf s.current issue = some sr →
      (∃ it ∈ env.ebay (ebayQuery sr.title issue.issueNumber),
        it.itemId = none ∨ it.title = none) →
      (update_ebay_listings env s issue).committed.snapshots
          = s.committed.snapshots ∧
      (update_ebay_listings env s issue).committed.listings
          = s.committed.listings) ∧
    (∀ (env : PricingEnv) (s : Sess) (issue : IssueRow) (sr : SeriesRow)
        (items : List EbayItem),
      s.current = s.committed → s.faults = [] →
      seriesOf s.current issue = some sr →
      env.ebay (ebayQuery sr.title issue.issueNumber) = items → items ≠ [] →
      (∀ it ∈ items, it.itemId.isSome ∧ it.title.isSome) →
      ∃ snap rows,
        (update_ebay_listings env s issue).committed.snapshots
          = s.committed.snapshots ++ [snap] ∧
        snap.payload = Payload.ebay items ∧ snap.issueId = issue.id ∧
        (update_ebay_listings env s issue).committed.listings
          = s.committed.listings ++ rows ∧
        rows.length = items.length ∧
        (∀ p ∈ rows.zip items, p.1.snapshotId = snap.id ∧
          some p.1.listingId = p.2.itemId ∧ some p.1.title = p.2.title ∧
          p.1.url = p.2.itemWebUrl ∧ p.1.priceUsd = p.2.priceValue ∧
          p.1.currency = p.2.priceCurrency ∧ p.1.condition = p.2.condition)) :=
  ⟨ebay_bad_item_nothing_persisted, ebay_good_items_persisted⟩

theorem c9_witness :
    ((sessS.current = sessS.committed ∧
        seriesOf sessS.current issueS = some seriesS ∧
        (∃ it ∈ envPbad.ebay (ebayQuery seriesS.title issueS.issueNumber),
          it.itemId = none ∨ it.title = none)) ∧
      ((update_ebay_listings envPbad sessS issueS).committed.snapshots
          = sessS.committed.snapshots ∧
        (update_ebay_listings envPbad sessS issueS).committed.listings
          = sessS.committed.listings)) ∧
    ((envP.ebay (ebayQuery seriesS.title issueS.issueNumber) = [goodItem] ∧
        [goodItem] ≠ ([] : List EbayItem)) ∧
      ∃ snap rows,
        (update_ebay_listings envP sessS issueS).committed.snapshots
          = sessS.committed.snapshots ++ [snap] ∧
        snap.payload = Payload.ebay [goodItem] ∧ snap.issueId = issueS.id ∧
        (update_ebay_listings envP sessS issueS).committed.listings
          = sessS.committed.listings ++ rows ∧
        rows.length = [goodItem].length ∧
        (∀ p ∈ rows.zip [goodItem], p.1.snapshotId = snap.id ∧
          some p.1.listingId = p.2.itemId ∧ some p.1.title = p.2.title ∧
          p.1.url = p.2.itemWebUrl ∧ p.1.priceUsd = p.2.priceValue ∧
          p.1.currency = p.2.priceCurrency ∧ p.1.condition = p.2.condition)) :=
  ⟨⟨⟨rfl, by decide, by decide⟩,
      c9_listing_persistence.1 envPbad sessS issueS seriesS rfl (by decide) (by decide)⟩,
    ⟨⟨by decide, by decide⟩,
      c9_listing_persistence.2 envP sessS issueS seriesS [goodItem] rfl rfl
        (by decide) (by decide) (by decide) (by decide)⟩⟩

/-- The fast path of `get_or_create_issue_from_comicvine`: a local hit is
returned immediately, with no database change and no catalog fetch. -/
theorem reco_fastpath {env : CatalogEnv} {s : Sess} {title n : String} {i : IssueRow}
    (h : fastLookup s.current title n = some i) :
    get_or_create_issue_from_comicvine env s title n = ⟨s, some i, 0⟩ := by
  unfold get_or_create_issue_from_comicvine
  rw [h]

/-- The slow path once the series step has produced a series. -/
theorem reco_slow_some {env : CatalogEnv} {s : Sess} {title n : String} {sr : SeriesRow}
    (hfa : fastLookup s.current title n = none)
    (hsr : (getOrCreateSeriesCV env s title).result = some sr) :
    get_or_create_issue_from_comicvine env s title n
      = ⟨(getOrCreateIssueForSeries env (getOrCreateSeriesCV env s title).sess sr n).sess,
         (getOrCreateIssueForSeries env (getOrCreateSeriesCV env s title).sess sr n).result,
         (getOrCreateSeriesCV env s title).clientCalls
           + (getOrCreateIssueForSeries env (getOrCreateSeriesCV env s title).sess sr n).clientCalls⟩ := by
  unfold get_or_create_issue_from_comicvine
  rw [hfa]
  simp only [hsr]

/-- Resolving an issue's series is unaffected by appending series rows
whose generated ids are fresh. -/
theorem seriesOf_append_fresh {db db2 : DB} {L : List SeriesRow} {r : IssueRow}
    (hr : r.seriesId < db.nextId) (hL : ∀ x ∈ L, db.nextId ≤ x.id)
    (hdb2 : db2.series = db.series ++ L) :
    seriesOf db2 r = seriesOf db r := by
  unfold seriesOf
  rw [hdb2, List.find?_append]
  have hLnone : L.find? (fun sr => sr.id == r.seriesId) = none := by
    apply List.find?_eq_none.2
    intro x hx
    have h2 := hL x hx
    have h3 : x.id ≠ r.seriesId := by omega
    simp [h3]
  rw [hLnone]
  cases db.series.find? (fun sr => sr.id == r.seriesId) <;> simp

/-- C1 amended: after a first successful reconciliation of
`(series_title, issue_number)`, a second identical call returns the very
same Issue row through the local fast path, with no catalog fetch and no
database change — provided the series row of the returned issue has a
title containing `series_title` case-insensitively (always true when the
first call hit the fast path, or when the catalog candidate's name
contains the query or is absent).  The counterexample shows the proviso is
necessary: when the catalog-assigned title does not contain the query, the
second call misses the fast path, fetches again, and fails on the xref
uniqueness conflict. -/
theorem c1_idempotent_given_substring (env : CatalogEnv) (s : Sess) (title n : String)
    (i : IssueRow)
    (hwf : ∀ r ∈ s.current.issues, r.seriesId < s.current.nextId)
    (hres : (get_or_create_issue_from_comicvine env s title n).result = some i)
    (hilike : ∃ srH, seriesOf (get_or_create_issue_from_comicvine env s title n).sess.current i
        = some srH ∧ ilike srH.title title = true) :
    get_or_create_issue_from_comicvine env
        (get_or_create_issue_from_comicvine env s title n).sess title n
      = ⟨(get_or_create_issue_from_comicvine env s title n).sess, some i, 0⟩ := by
  rcases hfa : fastLookup s.current title n with _ | j
  · -- slow path
    rcases hsr : (getOrCreateSeriesCV env s title).result with _ | sr
    · rw [show get_or_create_issue_from_comicvine env s title n
          = ⟨(getOrCreateSeriesCV env s title).sess, none,
              (getOrCreateSeriesCV env s title).clientCalls⟩ by
        unfold get_or_create_issue_from_comicvine
        rw [hfa]
        simp only [hsr]] at hres
      simp at hres
    · have hslow := @reco_slow_some env s title n sr hfa hsr
      rw [hslow] at hres hilike ⊢
      simp only at hres hilike
      -- issue step facts
      obtain ⟨hcc2, hissues, hnum, hsid, hserpres, hfl2⟩ := issueCV_created_spec hres
      -- series step facts: L extension with fresh ids
      have hser_facts : ∃ L, (getOrCreateSeriesCV env s title).sess.current.series
            = s.current.series ++ L ∧
          (∀ x ∈ L, s.current.nextId ≤ x.id) ∧
          (getOrCreateSeriesCV env s title).sess.current.issues = s.current.issues := by
        rcases fsl : findSeriesIlike s.current title with _ | sr0
        · obtain ⟨v, vs, xr, _, _, hid, _, hserL, hissL, _⟩ := seriesCV_created_spec fsl hsr
          refine ⟨[sr], hserL, ?_, hissL⟩
          intro x hx
          simp at hx
          subst hx
          omega
        · rw [seriesCV_found fsl] at hsr ⊢
          refine ⟨[], by simp, by simp, rfl⟩
      obtain ⟨L, hserL, hLfresh, hissL⟩ := hser_facts
      -- the final database
      have hDissues : (getOrCreateIssueForSeries env
          (getOrCreateSeriesCV env s title).sess sr n).sess.current.issues
            = s.current.issues ++ [i] := by
        rw [hissues, hissL]
      have hDseries : (getOrCreateIssueForSeries env
          (getOrCreateSeriesCV env s title).sess sr n).sess.current.series
            = s.current.series ++ L := by
        rw [hserpres, hserL]
      -- old issues still fail the fast-path predicate
      have hold : ∀ r ∈ s.current.issues,
          ¬(r.issueNumber == n &&
            (match seriesOf (getOrCreateIssueForSeries env
                (getOrCreateSeriesCV env s title).sess sr n).sess.current r with
             | some sr2 => ilike sr2.title title
             | none => false)) = true := by
        intro r hr
        have hsame : seriesOf (getOrCreateIssueForSeries env
            (getOrCreateSeriesCV env s title).sess sr n).sess.current r
              = seriesOf s.current r :=
          seriesOf_append_fresh (hwf r hr) hLfresh hDseries
        have hold0 := List.find?_eq_none.1 hfa r hr
        rw [hsame]
        simpa using hold0
      -- the new issue satisfies it
      obtain ⟨srH, hsrH, hsrHlike⟩ := hilike
      have hfast2 : fastLookup (getOrCreateIssueForSeries env
          (getOrCreateSeriesCV env s title).sess sr n).sess.current title n = some i := by
        unfold fastLookup
        rw [hDissues, List.find?_append]
        rw [List.find?_eq_none.2 hold]
        simp only [Option.none_or]
        have : i.issueNumber == n := by simp [hnum]
        simp [List.find?, this, hsrH, hsrHlike]
      exact reco_fastpath hfast2
  · -- fast path hit on the first call
    have htop := @reco_fastpath env s title n j hfa
    rw [htop] at hres ⊢
    simp only at hres
    injection hres with hji
    subst hji
    exact reco_fastpath hfa

/-- Catalog environment whose sole candidate for "Spider-Man" is named
"The Amazing Spider-Man" (which contains the query). -/
def envAmazing2 : CatalogEnv :=
  ⟨fun q => if q = "Spider-Man" then [⟨7, some "The Amazing Spider-Man", none, none, none⟩]
    else [],
   fun v => if v = 7 then [⟨9, some "101", none, none⟩] else []⟩

theorem c1_witness :
    ((∀ r ∈ sess0.current.issues, r.seriesId < sess0.current.nextId) ∧
      (get_or_create_issue_from_comicvine envAmazing2 sess0 "Spider-Man" "101").result
        = some ⟨4, 1, "101", none, none⟩ ∧
      (∃ srH, seriesOf (get_or_create_issue_from_comicvine envAmazing2 sess0
          "Spider-Man" "101").sess.current ⟨4, 1, "101", none, none⟩ = some srH ∧
        ilike srH.title "Spider-Man" = true)) ∧
    get_or_create_issue_from_comicvine envAmazing2
        (get_or_create_issue_from_comicvine envAmazing2 sess0 "Spider-Man" "101").sess
        "Spider-Man" "101"
      = ⟨(get_or_create_issue_from_comicvine envAmazing2 sess0 "Spider-Man" "101").sess,
          some ⟨4, 1, "101", none, none⟩, 0⟩ :=
  ⟨⟨by decide, by decide,
      ⟨⟨1, "The Amazing Spider-Man", none, none, none⟩, by decide, by decide⟩⟩,
    c1_idempotent_given_substring envAmazing2 sess0 "Spider-Man" "101"
      ⟨4, 1, "101", none, none⟩ (by decide) (by decide)
      ⟨⟨1, "The Amazing Spider-Man", none, none, none⟩, by decide, by decide⟩⟩
